import Mathlib

/-!
Verification development for the Teams SSO bot (src/server.py, src/agent.py).

The Python sources are shallowly embedded: pure decision logic becomes Lean
functions, the external collaborators (credential gateway, AI Foundry backend)
become an explicit oracle record whose fields give each external call's result
(`Except Unit _` where the call can raise), and one turn of the message handler
becomes a function from settings, thread map, activity and oracle to a trace of
effects, an updated thread map and an outcome (normal return or uncaught
exception).
-/

namespace BotModel

/-! ## Python-style helpers -/

/-- The ASCII apostrophe, used to build the source's literal strings without a
bare quote character in the file. -/
def apos : String := String.singleton (Char.ofNat 39)

/-- Python `text.strip()`: drop whitespace from both ends. -/
def pyStrip (s : String) : String :=
  String.mk (((s.data.dropWhile Char.isWhitespace).reverse.dropWhile
    Char.isWhitespace).reverse)

/-- Python `text.lower()` (character-wise lowering, as `Char.toLower`). -/
def pyLower (s : String) : String := String.mk (s.data.map Char.toLower)

/-- Python `x or default` on an optional string: `None` and `""` are falsy. -/
def pyOrStr (o : Option String) (d : String) : String :=
  match o with
  | some s => if s = "" then d else s
  | none => d

/-! ## Thread map (Python dict `{conversation_id: thread_id}`) -/

/-- The in-memory `self._conversation_threads` dict, as an association list. -/
abbrev ThreadMap := List (String × String)

/-- Dict lookup: first binding for the key. -/
def mapLookup (m : ThreadMap) (k : String) : Option String :=
  match m with
  | [] => none
  | (k2, v) :: rest => if k2 = k then some v else mapLookup rest k

/-- Dict assignment `m[k] = v`: replace the first binding or append. -/
def mapInsert (m : ThreadMap) (k v : String) : ThreadMap :=
  match m with
  | [] => [(k, v)]
  | (k2, v2) :: rest => if k2 = k then (k, v) :: rest else (k2, v2) :: mapInsert rest k v

/-- Dict deletion `del m[k]`: drop the first binding for the key. -/
def mapErase (m : ThreadMap) (k : String) : ThreadMap :=
  match m with
  | [] => []
  | (k2, v2) :: rest => if k2 = k then rest else (k2, v2) :: mapErase rest k

/-- Dict well-formedness: keys are pairwise distinct. -/
def keysNodup (m : ThreadMap) : Prop := (m.map Prod.fst).Nodup

instance (m : ThreadMap) : Decidable (keysNodup m) := by
  unfold keysNodup; infer_instance

/-! ## server.py: settings and application wiring -/

/-- `BotSettings` dataclass from server.py. -/
structure BotSettings where
  app_id : String
  app_type : String
  tenant_id : Option String
  client_secret : Option String
  oauth_connection_name : String
  public_base_url : String
  azure_openai_endpoint : String
  azure_openai_api_key : String
  azure_openai_api_version : String
  azure_openai_deployment_name : String
  port : Nat := 8000
  allowed_tenants : List String := []

/-- `AgentSettings` dataclass from agent.py (slots, no defaults). -/
structure AgentSettings where
  bot_app_id : String
  oauth_connection_name : String
  public_base_url : String
  foundry_project_endpoint : String
  foundry_agent_name : String
  allowed_tenants : List String
deriving DecidableEq

/-- Python runtime error kinds relevant to the embedding. -/
inductive PyError where
  | typeError
deriving DecidableEq

/-- The declared field names of the `AgentSettings` dataclass (agent.py,
all required: `slots=True`, no defaults). -/
def agentSettingsFields : List String :=
  ["bot_app_id", "oauth_connection_name", "public_base_url",
   "foundry_project_endpoint", "foundry_agent_name", "allowed_tenants"]

/-- The keyword-argument names `_build_agent` (server.py) passes to the
`AgentSettings` constructor. -/
def buildAgentKwargs : List String :=
  ["bot_app_id", "oauth_connection_name", "public_base_url",
   "azure_openai_endpoint", "azure_openai_api_key",
   "azure_openai_api_version", "azure_openai_deployment_name",
   "allowed_tenants"]

/-- Python dataclass call semantics: the call succeeds iff every supplied
keyword is a declared field and every (required) field is supplied; otherwise
the constructor raises `TypeError`. -/
def kwargsAccepted (fields provided : List String) : Bool :=
  provided.all (fun k => fields.contains k) && fields.all (fun k => provided.contains k)

/-- `_build_agent` from server.py: constructs `AgentSettings` with the keyword
list `buildAgentKwargs`. The `ok` branch is proved unreachable below (the
keyword check fails), so the foundry fields there are filled with a value no
call site can supply. -/
def _build_agent (s : BotSettings) : Except PyError AgentSettings :=
  if kwargsAccepted agentSettingsFields buildAgentKwargs then
    Except.ok
      { bot_app_id := s.app_id
        oauth_connection_name := s.oauth_connection_name
        public_base_url := s.public_base_url
        foundry_project_endpoint := ""
        foundry_agent_name := ""
        allowed_tenants := s.allowed_tenants }
  else
    Except.error PyError.typeError

/-- The aiohttp application, reduced to the route table the claims mention. -/
structure App where
  routes : List (String × String)
deriving DecidableEq

/-- `create_app` from server.py: builds the connection manager and adapter
(pure wiring, elided as they carry no failure), then `_build_agent`; an
exception from the agent build propagates and no application is returned. -/
def create_app (s : BotSettings) : Except PyError App :=
  match _build_agent s with
  | Except.error e => Except.error e
  | Except.ok _ => Except.ok { routes := [("POST", "/api/messages"), ("GET", "/health")] }

/-! ## agent.py: data model -/

/-- SDK `TokenResponse`, reduced to the token string; Python truthiness of the
token is emptiness of the string. -/
structure TokenResponse where
  token : String
deriving DecidableEq

/-- Python `token_response and token_response.token`. -/
def validTokOpt (r : Option TokenResponse) : Bool :=
  match r with
  | some tr => tr.token ≠ ""
  | none => false

/-- The conversation account of an activity (`activity.conversation`). -/
structure ConversationAccount where
  id : String
  tenant_id : Option String
deriving DecidableEq

/-- An inbound message activity, reduced to the fields agent.py reads. -/
structure Activity where
  text : String
  conversation : ConversationAccount
  from_id : String
  channel_id : String
  relates_to : Option String
deriving DecidableEq

/-- The state blob `TokenExchangeState` built by `_send_sign_in_card`: the
conversation reference is modelled by the conversation id it denotes. -/
structure TokenExchangeState where
  connection_name : String
  conversation : String
  relates_to : Option String
  agent_url : String
  ms_app_id : String
deriving DecidableEq

/-- The sign-in resource the user-token client returns for a state blob. -/
structure SignInResource where
  sign_in_link : String
  token_exchange_resource : String
  token_post_resource : String
deriving DecidableEq

/-- The outbound OAuth card, reduced to the fields `_send_sign_in_card` sets. -/
structure OAuthCardModel where
  text : String
  connection_name : String
  button_title : String
  button_value : String
  token_exchange_resource : String
  token_post_resource : String
deriving DecidableEq

/-- One content item of an AI Foundry thread message: `textValue` is `some v`
when the item has a `text` attribute with value `v` (`hasattr` check). -/
structure ContentItem where
  textValue : Option String
deriving DecidableEq

/-- One AI Foundry thread message. -/
structure FoundryMessage where
  role : String
  content : List ContentItem
deriving DecidableEq

/-- External-call oracle: the result each collaborator call would produce this
turn. `Except.error ()` models the call raising. `getToken` is keyed by the
optional magic code, `exchangeToken` by the connection name used,
`signInResource` by the encoded state. -/
structure Oracle where
  getToken : Option String → Except Unit (Option TokenResponse)
  signInResource : TokenExchangeState → SignInResource
  exchangeToken : String → Option TokenResponse
  threadDelete : Except Unit Unit
  threadCreate : Except Unit String
  messageCreate : Except Unit Unit
  runStatus : Except Unit String
  listMessages : Except Unit (List FoundryMessage)

/-- Observable events of one turn, in execution order. -/
inductive Effect where
  | tenantCheck
  | sentText (s : String)
  | sentOAuthCard (state : TokenExchangeState) (card : OAuthCardModel)
  | tokenLookup (code : Option String)
  | threadDeleteCall (tid : String)
  | threadCreateCall
  | messageCreateCall (tid : String) (content : String)
  | runCall (tid : String)
  | messagesListCall (tid : String)
deriving DecidableEq

/-- How one turn of the message handler ends. -/
inductive Outcome where
  | normal
  | raised
deriving DecidableEq

/-- The result of one turn: the effect trace, the updated thread map, and
whether the handler returned normally or let an exception escape. -/
structure HandlerResult where
  out : List Effect
  map : ThreadMap
  outcome : Outcome
deriving DecidableEq

/-! ## agent.py: literal reply strings -/

/-- Denial text sent by `_validate_tenant`. -/
def denialText : String :=
  "I" ++ apos ++ "m sorry, but your organization is not authorized to use this bot. " ++
  "Please contact your administrator for access."

/-- Confirmation text sent for a reset command. -/
def resetConfirmText : String :=
  "🔄 Conversation history cleared! Starting fresh. How can I help you?"

/-- Text sent when the run completes with status `failed`. -/
def runFailedText : String := "⚠️ An error occurred while processing your message."

/-- Text sent when no assistant response is found in the thread. -/
def noResponseText : String :=
  "I apologize, but I couldn" ++ apos ++ "t generate a response."

/-- Apology sent by the relay's outer exception handler. -/
def backendErrorText : String :=
  "An error occurred while processing your message. Please try again later."

/-- The reset command set checked after trim and lower-casing. -/
def resetCommands : List String := ["/reset", "/clear", "/new"]

/-! ## agent.py: handlers -/

/-- Python truthiness of the optional tenant id (`None` and `""` are falsy). -/
def tenantTruthy (t : Option String) : Bool :=
  match t with
  | some s => s ≠ ""
  | none => false

/-- `_validate_tenant`: empty allowlist allows everything; a truthy tenant id
outside the allowlist is denied with one fixed reply; a falsy (absent or
empty) tenant id is allowed. The `tenantCheck` marker records that the check
ran, at the head of the turn's trace. -/
def _validate_tenant (s : AgentSettings) (act : Activity) : Bool × List Effect :=
  if s.allowed_tenants = [] then
    (true, [Effect.tenantCheck])
  else if tenantTruthy act.conversation.tenant_id = true ∧
       act.conversation.tenant_id.getD "" ∉ s.allowed_tenants then
    (false, [Effect.tenantCheck, Effect.sentText denialText])
  else
    (true, [Effect.tenantCheck])

/-- The state blob `_send_sign_in_card` encodes. -/
def cardState (s : AgentSettings) (act : Activity) : TokenExchangeState :=
  { connection_name := s.oauth_connection_name
    conversation := act.conversation.id
    relates_to := act.relates_to
    agent_url := s.public_base_url
    ms_app_id := s.bot_app_id }

/-- The OAuth card `_send_sign_in_card` builds from the sign-in resource. -/
def builtCard (s : AgentSettings) (act : Activity) (o : Oracle) : OAuthCardModel :=
  let res := o.signInResource (cardState s act)
  { text := "Sign in to continue"
    connection_name := s.oauth_connection_name
    button_title := "Sign in"
    button_value := res.sign_in_link
    token_exchange_resource := res.token_exchange_resource
    token_post_resource := res.token_post_resource }

/-- `_send_sign_in_card` as the effect it emits. -/
def _send_sign_in_card (s : AgentSettings) (act : Activity) (o : Oracle) : Effect :=
  Effect.sentOAuthCard (cardState s act) (builtCard s act o)

/-- First content item carrying a `text` attribute (inner loop of step 5). -/
def firstText (items : List ContentItem) : Option String :=
  match items with
  | [] => none
  | ci :: rest =>
    match ci.textValue with
    | some v => some v
    | none => firstText rest

/-- Python truthiness of the accumulated `response_text`. -/
def pyTruthy (r : Option String) : Bool :=
  match r with
  | some s => s ≠ ""
  | none => false

/-- Outer message scan of step 5: walk the messages, overwrite the accumulator
with the first textual item of each assistant message, stop when the
accumulator becomes truthy. -/
def scanMessages (msgs : List FoundryMessage) (acc : Option String) : Option String :=
  match msgs with
  | [] => acc
  | m :: rest =>
    let acc2 :=
      if m.role = "assistant" then
        match firstText m.content with
        | some v => some v
        | none => acc
      else acc
    if pyTruthy acc2 then acc2 else scanMessages rest acc2

/-- The assistant response the relay will send, when one is found (truthy). -/
def responseOf (msgs : List FoundryMessage) : Option String :=
  let r := scanMessages msgs none
  if pyTruthy r then r else none

/-- The effect sequence of steps 3–6 of `_process_message_with_agent`, after
the thread id is known; each external call may raise, and the outer `except`
converts any raise into the fixed apology. The thread map is never touched in
these steps and every raise is caught, so the tail is fully described by its
effect list. -/
def relayTailOut (tid : String) (text : String) (o : Oracle) : List Effect :=
  match o.messageCreate with
  | Except.error _ =>
    [Effect.messageCreateCall tid text, Effect.sentText backendErrorText]
  | Except.ok _ =>
    match o.runStatus with
    | Except.error _ =>
      [Effect.messageCreateCall tid text, Effect.runCall tid,
       Effect.sentText backendErrorText]
    | Except.ok status =>
      if status = "failed" then
        [Effect.messageCreateCall tid text, Effect.runCall tid,
         Effect.sentText runFailedText]
      else
        match o.listMessages with
        | Except.error _ =>
          [Effect.messageCreateCall tid text, Effect.runCall tid,
           Effect.messagesListCall tid, Effect.sentText backendErrorText]
        | Except.ok msgs =>
          match responseOf msgs with
          | some r =>
            [Effect.messageCreateCall tid text, Effect.runCall tid,
             Effect.messagesListCall tid, Effect.sentText r]
          | none =>
            [Effect.messageCreateCall tid text, Effect.runCall tid,
             Effect.messagesListCall tid, Effect.sentText noResponseText]

/-- Steps 3–6 of `_process_message_with_agent` as a handler result. -/
def relayTail (st : ThreadMap) (tid : String) (text : String) (o : Oracle)
    (pre : List Effect) : HandlerResult :=
  ⟨pre ++ relayTailOut tid text o, st, Outcome.normal⟩

/-- `_process_message_with_agent`: lazily create the thread for the
conversation when absent (a raise there is caught into the apology; a created
thread is recorded in the map before the remaining steps run), then run the
relay tail. -/
def _process_message_with_agent (st : ThreadMap) (act : Activity) (o : Oracle)
    (pre : List Effect) : HandlerResult :=
  match mapLookup st act.conversation.id with
  | none =>
    match o.threadCreate with
    | Except.error _ =>
      ⟨pre ++ [Effect.threadCreateCall, Effect.sentText backendErrorText], st, Outcome.normal⟩
    | Except.ok tid =>
      relayTail (mapInsert st act.conversation.id tid) tid act.text o
        (pre ++ [Effect.threadCreateCall])
  | some tid => relayTail st tid act.text o pre

/-- The authenticated branch of `on_message_activity`: reset commands delete
the remote thread (eviction only when the delete call returns) and confirm;
anything else goes to the relay. -/
def handleAuthenticated (st : ThreadMap) (act : Activity) (o : Oracle)
    (pre : List Effect) : HandlerResult :=
  if pyLower (pyStrip act.text) ∈ resetCommands then
    match mapLookup st act.conversation.id with
    | some tid =>
      match o.threadDelete with
      | Except.ok _ =>
        ⟨pre ++ [Effect.threadDeleteCall tid, Effect.sentText resetConfirmText],
         mapErase st act.conversation.id, Outcome.normal⟩
      | Except.error _ =>
        ⟨pre ++ [Effect.threadDeleteCall tid, Effect.sentText resetConfirmText],
         st, Outcome.normal⟩
    | none => ⟨pre ++ [Effect.sentText resetConfirmText], st, Outcome.normal⟩
  else
    _process_message_with_agent st act o pre

/-- `on_message_activity`: tenant gate first; then the token lookup (an
uncaught raise there escapes the handler); with a valid token the
command/relay branch runs, otherwise the sign-in card is sent. -/
def on_message_activity (s : AgentSettings) (st : ThreadMap) (act : Activity)
    (o : Oracle) : HandlerResult :=
  match _validate_tenant s act with
  | (false, es) => ⟨es, st, Outcome.normal⟩
  | (true, es) =>
    match o.getToken none with
    | Except.error _ => ⟨es ++ [Effect.tokenLookup none], st, Outcome.raised⟩
    | Except.ok tokRes =>
      if validTokOpt tokRes then
        handleAuthenticated st act o (es ++ [Effect.tokenLookup none])
      else
        ⟨es ++ [Effect.tokenLookup none, _send_sign_in_card s act o], st, Outcome.normal⟩

/-! ## agent.py: sign-in invoke handler -/

/-- `SignInConstants.token_exchange_operation_name`. -/
def token_exchange_operation_name : String := "signin/tokenExchange"

/-- `SignInConstants.verify_state_operation_name`. -/
def verify_state_operation_name : String := "signin/verifyState"

/-- The `value` payload of a sign-in invoke activity: `id` and
`connection_name` for token exchange, `state` (the magic code) for
verify-state; absent entries are `none`. -/
structure InvokeValue where
  id : String
  connection_name : Option String
  state : Option String
deriving DecidableEq

/-- A sign-in invoke activity. -/
structure InvokeActivity where
  name : String
  value : InvokeValue
deriving DecidableEq

/-- The SDK `TokenExchangeInvokeResponse` body. -/
structure TokenExchangeInvokeResponse where
  id : String
  connection_name : String
deriving DecidableEq

/-- How `on_sign_in_invoke` ends: an invoke response (with or without a body),
an `_InvokeResponseException` with an HTTP status, the superclass default for
unknown names, or an uncaught raise from a collaborator. -/
inductive InvokeOutcome where
  | invokeResponse (body : Option TokenExchangeInvokeResponse)
  | invokeException (status : Nat)
  | superDefault
  | raisedOther
deriving DecidableEq

/-- `_handle_token_exchange`: exchange the token under the request's
connection name (falling back to the configured one); a valid token yields
the id/connection-name acknowledgement dict, otherwise `None`. -/
def _handle_token_exchange (s : AgentSettings) (act : InvokeActivity) (o : Oracle) :
    Option (String × String) :=
  match o.exchangeToken (pyOrStr act.value.connection_name s.oauth_connection_name) with
  | some tr =>
    if tr.token ≠ "" then
      some (act.value.id, pyOrStr act.value.connection_name s.oauth_connection_name)
    else none
  | none => none

/-- `on_sign_in_invoke`: dispatch on the activity name; token exchange answers
with the acknowledgement body or raises 412; verify-state redeems the magic
code and answers with an empty acknowledgement or raises 400; other names fall
through to the superclass. -/
def on_sign_in_invoke (s : AgentSettings) (act : InvokeActivity) (o : Oracle) :
    InvokeOutcome :=
  if act.name = token_exchange_operation_name then
    match _handle_token_exchange s act o with
    | some (i, cn) => InvokeOutcome.invokeResponse (some ⟨i, cn⟩)
    | none => InvokeOutcome.invokeException 412
  else if act.name = verify_state_operation_name then
    match o.getToken act.value.state with
    | Except.error _ => InvokeOutcome.raisedOther
    | Except.ok tokRes =>
      if validTokOpt tokRes then InvokeOutcome.invokeResponse none
      else InvokeOutcome.invokeException 400
  else
    InvokeOutcome.superDefault

/-! ## Trace extractors -/

/-- The plain text replies in a trace, in order. -/
def sentTexts (t : List Effect) : List String :=
  match t with
  | [] => []
  | Effect.sentText s :: rest => s :: sentTexts rest
  | _ :: rest => sentTexts rest

/-- The OAuth card replies in a trace, in order. -/
def cardEvents (t : List Effect) : List (TokenExchangeState × OAuthCardModel) :=
  match t with
  | [] => []
  | Effect.sentOAuthCard st c :: rest => (st, c) :: cardEvents rest
  | _ :: rest => cardEvents rest

/-- Whether an effect is a user-token lookup. -/
def isTokenLookup (e : Effect) : Bool :=
  match e with
  | Effect.tokenLookup _ => true
  | _ => false

/-- Whether an effect is a call to the AI backend (thread create/delete,
message create, run, message list). -/
def isBackendCall (e : Effect) : Bool :=
  match e with
  | Effect.threadDeleteCall _ => true
  | Effect.threadCreateCall => true
  | Effect.messageCreateCall _ _ => true
  | Effect.runCall _ => true
  | Effect.messagesListCall _ => true
  | _ => false

/-- Whether an effect is a call to the AI relay proper (the per-message
processing calls: thread create, message create, run, message list). -/
def isRelayCall (e : Effect) : Bool :=
  match e with
  | Effect.threadCreateCall => true
  | Effect.messageCreateCall _ _ => true
  | Effect.runCall _ => true
  | Effect.messagesListCall _ => true
  | _ => false

/-- Whether an effect is a run invocation. -/
def isRunCall (e : Effect) : Bool :=
  match e with
  | Effect.runCall _ => true
  | _ => false

/-- Count of user-token lookups in a trace. -/
def countTokenLookups (t : List Effect) : Nat := t.countP (fun e => isTokenLookup e)

/-- Count of AI backend calls in a trace. -/
def countBackendCalls (t : List Effect) : Nat := t.countP (fun e => isBackendCall e)

/-- Count of AI relay calls in a trace. -/
def countRelayCalls (t : List Effect) : Nat := t.countP (fun e => isRelayCall e)

/-- Count of run invocations in a trace. -/
def countRunCalls (t : List Effect) : Nat := t.countP (fun e => isRunCall e)

/-! ## Map lemmas -/

theorem mapLookup_mapInsert_self (m : ThreadMap) (k v : String) :
    mapLookup (mapInsert m k v) k = some v := by
  induction m with
  | nil => simp [mapInsert, mapLookup]
  | cons hd tl ih =>
    obtain ⟨k2, v2⟩ := hd
    by_cases h : k2 = k
    · simp [mapInsert, if_pos h, mapLookup]
    · simp only [mapInsert, if_neg h, mapLookup, if_neg h]
      exact ih

theorem mapLookup_mapInsert_ne (m : ThreadMap) (k v k' : String) (h : k' ≠ k) :
    mapLookup (mapInsert m k v) k' = mapLookup m k' := by
  have hkk : ¬k = k' := fun hh => h hh.symm
  induction m with
  | nil => simp only [mapInsert, mapLookup, if_neg hkk]
  | cons hd tl ih =>
    obtain ⟨k2, v2⟩ := hd
    by_cases h2 : k2 = k
    · simp only [mapInsert, if_pos h2, mapLookup, if_neg hkk, if_neg (h2 ▸ hkk)]
    · simp only [mapInsert, if_neg h2, mapLookup]
      by_cases h3 : k2 = k'
      · simp only [if_pos h3]
      · simp only [if_neg h3]
        exact ih

theorem mapLookup_mapErase_ne (m : ThreadMap) (k k' : String) (h : k' ≠ k) :
    mapLookup (mapErase m k) k' = mapLookup m k' := by
  induction m with
  | nil => simp only [mapErase, mapLookup]
  | cons hd tl ih =>
    obtain ⟨k2, v2⟩ := hd
    by_cases h2 : k2 = k
    · have h4 : ¬k2 = k' := fun hh => h (hh ▸ h2)
      simp only [mapErase, if_pos h2, mapLookup, if_neg h4]
    · simp only [mapErase, if_neg h2, mapLookup]
      by_cases h3 : k2 = k'
      · simp only [if_pos h3]
      · simp only [if_neg h3]
        exact ih

theorem mapLookup_eq_none_of_not_mem_keys (m : ThreadMap) (k : String)
    (h : k ∉ m.map Prod.fst) : mapLookup m k = none := by
  induction m with
  | nil => simp [mapLookup]
  | cons hd tl ih =>
    obtain ⟨k2, v2⟩ := hd
    simp only [List.map_cons, List.mem_cons] at h
    push_neg at h
    simp only [mapLookup, if_neg (fun hh : k2 = k => h.1 hh.symm)]
    exact ih h.2

theorem keys_mapErase_subset (m : ThreadMap) (k x : String)
    (hx : x ∈ (mapErase m k).map Prod.fst) : x ∈ m.map Prod.fst := by
  induction m with
  | nil =>
    rw [mapErase] at hx
    exact hx
  | cons hd tl ih =>
    obtain ⟨k2, v2⟩ := hd
    by_cases h2 : k2 = k
    · rw [mapErase, if_pos h2] at hx
      simp only [List.map_cons, List.mem_cons]
      exact Or.inr hx
    · rw [mapErase, if_neg h2] at hx
      simp only [List.map_cons, List.mem_cons] at hx ⊢
      rcases hx with h | h
      · exact Or.inl h
      · exact Or.inr (ih h)

theorem not_mem_keys_mapErase_self (m : ThreadMap) (k : String) (h : keysNodup m) :
    k ∉ (mapErase m k).map Prod.fst := by
  induction m with
  | nil => simp [mapErase]
  | cons hd tl ih =>
    obtain ⟨k2, v2⟩ := hd
    unfold keysNodup at h
    simp only [List.map_cons, List.nodup_cons] at h
    by_cases h2 : k2 = k
    · rw [mapErase, if_pos h2]
      exact fun hmem => h.1 (h2 ▸ hmem)
    · rw [mapErase, if_neg h2]
      simp only [List.map_cons, List.mem_cons]
      rintro (hh | hh)
      · exact h2 hh.symm
      · exact ih h.2 hh

theorem mapLookup_mapErase_self (m : ThreadMap) (k : String) (h : keysNodup m) :
    mapLookup (mapErase m k) k = none :=
  mapLookup_eq_none_of_not_mem_keys _ _ (not_mem_keys_mapErase_self m k h)

theorem keys_mapInsert_subset (m : ThreadMap) (k v x : String)
    (hx : x ∈ (mapInsert m k v).map Prod.fst) : x = k ∨ x ∈ m.map Prod.fst := by
  induction m with
  | nil =>
    rw [mapInsert] at hx
    simp only [List.map_cons, List.map_nil, List.mem_singleton] at hx
    exact Or.inl hx
  | cons hd tl ih =>
    obtain ⟨k2, v2⟩ := hd
    by_cases h2 : k2 = k
    · rw [mapInsert, if_pos h2] at hx
      simp only [List.map_cons, List.mem_cons] at hx ⊢
      rcases hx with h | h
      · exact Or.inl h
      · exact Or.inr (Or.inr h)
    · rw [mapInsert, if_neg h2] at hx
      simp only [List.map_cons, List.mem_cons] at hx ⊢
      rcases hx with h | h
      · exact Or.inr (Or.inl h)
      · rcases ih h with h | h
        · exact Or.inl h
        · exact Or.inr (Or.inr h)

theorem keysNodup_mapInsert (m : ThreadMap) (k v : String) (h : keysNodup m) :
    keysNodup (mapInsert m k v) := by
  induction m with
  | nil => simp [keysNodup, mapInsert]
  | cons hd tl ih =>
    obtain ⟨k2, v2⟩ := hd
    unfold keysNodup at h ⊢
    simp only [List.map_cons, List.nodup_cons] at h
    by_cases hk : k2 = k
    · rw [mapInsert, if_pos hk]
      simp only [List.map_cons, List.nodup_cons]
      exact ⟨fun hmem => h.1 (hk ▸ hmem), h.2⟩
    · rw [mapInsert, if_neg hk]
      simp only [List.map_cons, List.nodup_cons]
      refine ⟨fun hmem => ?_, ih h.2⟩
      rcases keys_mapInsert_subset tl k v k2 hmem with hh | hh
      · exact hk hh
      · exact h.1 hh

theorem keysNodup_mapErase (m : ThreadMap) (k : String) (h : keysNodup m) :
    keysNodup (mapErase m k) := by
  induction m with
  | nil => simp [keysNodup, mapErase]
  | cons hd tl ih =>
    obtain ⟨k2, v2⟩ := hd
    unfold keysNodup at h ⊢
    simp only [List.map_cons, List.nodup_cons] at h
    by_cases hk : k2 = k
    · rw [mapErase, if_pos hk]
      exact h.2
    · rw [mapErase, if_neg hk]
      simp only [List.map_cons, List.nodup_cons]
      exact ⟨fun hmem => h.1 (keys_mapErase_subset tl k k2 hmem), ih h.2⟩

/-! ## Dispatch lemmas for the message handler -/

theorem validate_tenant_cases (s : AgentSettings) (act : Activity) :
    _validate_tenant s act = (true, [Effect.tenantCheck]) ∨
    _validate_tenant s act = (false, [Effect.tenantCheck, Effect.sentText denialText]) := by
  unfold _validate_tenant
  split
  · exact Or.inl rfl
  · split
    · exact Or.inr rfl
    · exact Or.inl rfl

theorem validate_tenant_empty (s : AgentSettings) (act : Activity)
    (h : s.allowed_tenants = []) :
    _validate_tenant s act = (true, [Effect.tenantCheck]) := by
  unfold _validate_tenant
  rw [if_pos h]

theorem validate_tenant_denies (s : AgentSettings) (act : Activity) (t : String)
    (hne : s.allowed_tenants ≠ []) (ht : act.conversation.tenant_id = some t)
    (ht0 : t ≠ "") (hmem : t ∉ s.allowed_tenants) :
    _validate_tenant s act = (false, [Effect.tenantCheck, Effect.sentText denialText]) := by
  unfold _validate_tenant
  rw [if_neg hne, if_pos ?_]
  constructor
  · rw [ht]
    simp [tenantTruthy, ht0]
  · rw [ht]
    simpa using hmem

theorem validate_tenant_absent (s : AgentSettings) (act : Activity)
    (ht : act.conversation.tenant_id = none) :
    _validate_tenant s act = (true, [Effect.tenantCheck]) := by
  unfold _validate_tenant
  split
  · rfl
  · rw [if_neg ?_]
    rintro ⟨h1, _⟩
    rw [ht] at h1
    simp [tenantTruthy] at h1

theorem on_message_denied (s : AgentSettings) (st : ThreadMap) (act : Activity) (o : Oracle)
    (h : _validate_tenant s act = (false, [Effect.tenantCheck, Effect.sentText denialText])) :
    on_message_activity s st act o =
      ⟨[Effect.tenantCheck, Effect.sentText denialText], st, Outcome.normal⟩ := by
  unfold on_message_activity
  rw [h]

theorem on_message_raised (s : AgentSettings) (st : ThreadMap) (act : Activity) (o : Oracle)
    (hT : _validate_tenant s act = (true, [Effect.tenantCheck]))
    (hG : o.getToken none = Except.error ()) :
    on_message_activity s st act o =
      ⟨[Effect.tenantCheck, Effect.tokenLookup none], st, Outcome.raised⟩ := by
  unfold on_message_activity
  rw [hT, hG]
  rfl

theorem on_message_unauth (s : AgentSettings) (st : ThreadMap) (act : Activity) (o : Oracle)
    (res : Option TokenResponse)
    (hT : _validate_tenant s act = (true, [Effect.tenantCheck]))
    (hG : o.getToken none = Except.ok res)
    (hv : validTokOpt res = false) :
    on_message_activity s st act o =
      ⟨[Effect.tenantCheck, Effect.tokenLookup none, _send_sign_in_card s act o],
       st, Outcome.normal⟩ := by
  unfold on_message_activity
  rw [hT, hG]
  simp [hv]

theorem on_message_auth (s : AgentSettings) (st : ThreadMap) (act : Activity) (o : Oracle)
    (res : Option TokenResponse)
    (hT : _validate_tenant s act = (true, [Effect.tenantCheck]))
    (hG : o.getToken none = Except.ok res)
    (hv : validTokOpt res = true) :
    on_message_activity s st act o =
      handleAuthenticated st act o [Effect.tenantCheck, Effect.tokenLookup none] := by
  unfold on_message_activity
  rw [hT, hG]
  simp [hv]

theorem handleAuth_reset_absent (st : ThreadMap) (act : Activity) (o : Oracle)
    (pre : List Effect)
    (hcmd : pyLower (pyStrip act.text) ∈ resetCommands)
    (habs : mapLookup st act.conversation.id = none) :
    handleAuthenticated st act o pre =
      ⟨pre ++ [Effect.sentText resetConfirmText], st, Outcome.normal⟩ := by
  unfold handleAuthenticated
  rw [if_pos hcmd, habs]

theorem handleAuth_reset_del_ok (st : ThreadMap) (act : Activity) (o : Oracle)
    (pre : List Effect) (tid : String)
    (hcmd : pyLower (pyStrip act.text) ∈ resetCommands)
    (hpres : mapLookup st act.conversation.id = some tid)
    (hdel : o.threadDelete = Except.ok ()) :
    handleAuthenticated st act o pre =
      ⟨pre ++ [Effect.threadDeleteCall tid, Effect.sentText resetConfirmText],
       mapErase st act.conversation.id, Outcome.normal⟩ := by
  unfold handleAuthenticated
  rw [if_pos hcmd, hpres, hdel]

theorem handleAuth_reset_del_err (st : ThreadMap) (act : Activity) (o : Oracle)
    (pre : List Effect) (tid : String)
    (hcmd : pyLower (pyStrip act.text) ∈ resetCommands)
    (hpres : mapLookup st act.conversation.id = some tid)
    (hdel : o.threadDelete = Except.error ()) :
    handleAuthenticated st act o pre =
      ⟨pre ++ [Effect.threadDeleteCall tid, Effect.sentText resetConfirmText],
       st, Outcome.normal⟩ := by
  unfold handleAuthenticated
  rw [if_pos hcmd, hpres, hdel]

theorem handleAuth_forward (st : ThreadMap) (act : Activity) (o : Oracle)
    (pre : List Effect)
    (hcmd : pyLower (pyStrip act.text) ∉ resetCommands) :
    handleAuthenticated st act o pre = _process_message_with_agent st act o pre := by
  unfold handleAuthenticated
  rw [if_neg hcmd]

theorem process_existing (st : ThreadMap) (act : Activity) (o : Oracle)
    (pre : List Effect) (tid : String)
    (hpres : mapLookup st act.conversation.id = some tid) :
    _process_message_with_agent st act o pre =
      ⟨pre ++ relayTailOut tid act.text o, st, Outcome.normal⟩ := by
  unfold _process_message_with_agent
  rw [hpres]
  rfl

theorem process_create_err (st : ThreadMap) (act : Activity) (o : Oracle)
    (pre : List Effect)
    (habs : mapLookup st act.conversation.id = none)
    (hc : o.threadCreate = Except.error ()) :
    _process_message_with_agent st act o pre =
      ⟨pre ++ [Effect.threadCreateCall, Effect.sentText backendErrorText],
       st, Outcome.normal⟩ := by
  unfold _process_message_with_agent
  rw [habs, hc]

theorem process_create_ok (st : ThreadMap) (act : Activity) (o : Oracle)
    (pre : List Effect) (tid : String)
    (habs : mapLookup st act.conversation.id = none)
    (hc : o.threadCreate = Except.ok tid) :
    _process_message_with_agent st act o pre =
      ⟨(pre ++ [Effect.threadCreateCall]) ++ relayTailOut tid act.text o,
       mapInsert st act.conversation.id tid, Outcome.normal⟩ := by
  unfold _process_message_with_agent
  rw [habs, hc]
  rfl

/-! ## Trace and shape lemmas -/

theorem sentTexts_append (a b : List Effect) :
    sentTexts (a ++ b) = sentTexts a ++ sentTexts b := by
  induction a with
  | nil => rfl
  | cons hd tl ih =>
    cases hd <;> simp [sentTexts, ih]

theorem cardEvents_append (a b : List Effect) :
    cardEvents (a ++ b) = cardEvents a ++ cardEvents b := by
  induction a with
  | nil => rfl
  | cons hd tl ih =>
    cases hd <;> simp [cardEvents, ih]

theorem validate_tenant_true_eq (s : AgentSettings) (act : Activity)
    (h : (_validate_tenant s act).1 = true) :
    _validate_tenant s act = (true, [Effect.tenantCheck]) := by
  rcases validate_tenant_cases s act with hh | hh
  · exact hh
  · rw [hh] at h
    simp at h

theorem handleAuth_out_shape (st : ThreadMap) (act : Activity) (o : Oracle)
    (pre : List Effect) :
    ∃ rest, (handleAuthenticated st act o pre).out = pre ++ rest := by
  by_cases hcmd : pyLower (pyStrip act.text) ∈ resetCommands
  · cases hpres : mapLookup st act.conversation.id with
    | none => exact ⟨_, by rw [handleAuth_reset_absent st act o pre hcmd hpres]⟩
    | some tid =>
      cases hdel : o.threadDelete with
      | ok u =>
        cases u
        exact ⟨_, by rw [handleAuth_reset_del_ok st act o pre tid hcmd hpres hdel]⟩
      | error e =>
        cases e
        exact ⟨_, by rw [handleAuth_reset_del_err st act o pre tid hcmd hpres hdel]⟩
  · rw [handleAuth_forward st act o pre hcmd]
    cases hpres : mapLookup st act.conversation.id with
    | some tid => exact ⟨_, by rw [process_existing st act o pre tid hpres]⟩
    | none =>
      cases hc : o.threadCreate with
      | error e =>
        cases e
        exact ⟨_, by rw [process_create_err st act o pre hpres hc]⟩
      | ok tid =>
        refine ⟨[Effect.threadCreateCall] ++ relayTailOut tid act.text o, ?_⟩
        rw [process_create_ok st act o pre tid hpres hc]
        simp

/-- All the ways one message turn can change the thread map. -/
theorem on_message_map_cases (s : AgentSettings) (st : ThreadMap) (act : Activity)
    (o : Oracle) :
    (on_message_activity s st act o).map = st ∨
    ((on_message_activity s st act o).map = mapErase st act.conversation.id ∧
     pyLower (pyStrip act.text) ∈ resetCommands ∧
     ∃ tid, mapLookup st act.conversation.id = some tid) ∨
    (mapLookup st act.conversation.id = none ∧
     pyLower (pyStrip act.text) ∉ resetCommands ∧
     (_validate_tenant s act).1 = true ∧
     (∃ res, o.getToken none = Except.ok res ∧ validTokOpt res = true) ∧
     ∃ tid, o.threadCreate = Except.ok tid ∧
       (on_message_activity s st act o).map = mapInsert st act.conversation.id tid) := by
  rcases validate_tenant_cases s act with hT | hT
  · cases hG : o.getToken none with
    | error e =>
      cases e
      rw [on_message_raised s st act o hT hG]
      exact Or.inl rfl
    | ok res =>
      cases hv : validTokOpt res with
      | false =>
        rw [on_message_unauth s st act o res hT hG hv]
        exact Or.inl rfl
      | true =>
        rw [on_message_auth s st act o res hT hG hv]
        by_cases hcmd : pyLower (pyStrip act.text) ∈ resetCommands
        · cases hpres : mapLookup st act.conversation.id with
          | none =>
            rw [handleAuth_reset_absent st act o _ hcmd hpres]
            exact Or.inl rfl
          | some tid =>
            cases hdel : o.threadDelete with
            | ok u =>
              cases u
              rw [handleAuth_reset_del_ok st act o _ tid hcmd hpres hdel]
              exact Or.inr (Or.inl ⟨rfl, hcmd, tid, rfl⟩)
            | error e =>
              cases e
              rw [handleAuth_reset_del_err st act o _ tid hcmd hpres hdel]
              exact Or.inl rfl
        · rw [handleAuth_forward st act o _ hcmd]
          cases hpres : mapLookup st act.conversation.id with
          | some tid =>
            rw [process_existing st act o _ tid hpres]
            exact Or.inl rfl
          | none =>
            cases hc : o.threadCreate with
            | error e =>
              cases e
              rw [process_create_err st act o _ hpres hc]
              exact Or.inl rfl
            | ok tid =>
              rw [process_create_ok st act o _ tid hpres hc]
              exact Or.inr (Or.inr ⟨rfl, hcmd, by rw [hT], ⟨res, rfl, hv⟩, tid, rfl, rfl⟩)
  · rw [on_message_denied s st act o hT]
    exact Or.inl rfl

/-! ## Concrete fixtures (used by witnesses and counterexamples) -/

/-- A settings value with a one-tenant allowlist. -/
def sAllowT1 : AgentSettings :=
  { bot_app_id := "app-id"
    oauth_connection_name := "conn"
    public_base_url := "https://bot.example"
    foundry_project_endpoint := "https://foundry.example"
    foundry_agent_name := "agent"
    allowed_tenants := ["T1"] }

/-- A settings value with an empty allowlist. -/
def sOpen : AgentSettings :=
  { sAllowT1 with allowed_tenants := [] }

/-- A plain message activity from tenant T2 in conversation convA. -/
def actT2 : Activity :=
  { text := "hello"
    conversation := { id := "convA", tenant_id := some "T2" }
    from_id := "user-1"
    channel_id := "msteams"
    relates_to := none }

/-- A plain message activity with no tenant id. -/
def actPlain : Activity :=
  { actT2 with conversation := { id := "convA", tenant_id := none } }

/-- A reset-command activity (mixed case, padded, to exercise trim+lower). -/
def actReset : Activity :=
  { actPlain with text := " /Reset " }

/-- A happy-path oracle: valid token, all backend calls succeed. -/
def oHappy : Oracle :=
  { getToken := fun _ => Except.ok (some ⟨"tok"⟩)
    signInResource := fun _ => ⟨"https://signin.example", "exch-res", "post-res"⟩
    exchangeToken := fun _ => some ⟨"tok"⟩
    threadDelete := Except.ok ()
    threadCreate := Except.ok "th-new"
    messageCreate := Except.ok ()
    runStatus := Except.ok "completed"
    listMessages := Except.ok [] }

/-- Oracle whose thread-delete call raises. -/
def oDelFail : Oracle := { oHappy with threadDelete := Except.error () }

/-- Oracle whose user-token lookup raises. -/
def oTokFail : Oracle := { oHappy with getToken := fun _ => Except.error () }

/-- Oracle that returns no token. -/
def oNoTok : Oracle := { oHappy with getToken := fun _ => Except.ok none }

/-- Oracle whose run-processing call raises. -/
def oRunFail : Oracle := { oHappy with runStatus := Except.error () }

/-- A one-conversation thread map. -/
def mOne : ThreadMap := [("convA", "th-0")]

/-! ## Claims -/

/-- Claim C1: for every `BotSettings` value, `create_app` fails to construct
the agent: `_build_agent` always raises `TypeError`, because it passes the
keyword arguments `azure_openai_endpoint`, `azure_openai_api_key`,
`azure_openai_api_version` and `azure_openai_deployment_name`, which the
`AgentSettings` dataclass does not declare, and omits the required fields
`foundry_project_endpoint` and `foundry_agent_name`; hence no application with
the `/api/messages` and `/health` routes is ever returned. -/
theorem C1_create_app_always_raises :
    ("azure_openai_endpoint" ∈ buildAgentKwargs ∧
       "azure_openai_endpoint" ∉ agentSettingsFields) ∧
    ("azure_openai_api_key" ∈ buildAgentKwargs ∧
       "azure_openai_api_key" ∉ agentSettingsFields) ∧
    ("azure_openai_api_version" ∈ buildAgentKwargs ∧
       "azure_openai_api_version" ∉ agentSettingsFields) ∧
    ("azure_openai_deployment_name" ∈ buildAgentKwargs ∧
       "azure_openai_deployment_name" ∉ agentSettingsFields) ∧
    ("foundry_project_endpoint" ∈ agentSettingsFields ∧
       "foundry_project_endpoint" ∉ buildAgentKwargs) ∧
    ("foundry_agent_name" ∈ agentSettingsFields ∧
       "foundry_agent_name" ∉ buildAgentKwargs) ∧
    (∀ s : BotSettings,
       _build_agent s = Except.error PyError.typeError ∧
       create_app s = Except.error PyError.typeError ∧
       ∀ a : App, create_app s ≠ Except.ok a) := by
  refine ⟨by decide, by decide, by decide, by decide, by decide, by decide, fun s => ?_⟩
  have hb : _build_agent s = Except.error PyError.typeError := by
    unfold _build_agent
    rw [if_neg ?_]
    decide
  have hc : create_app s = Except.error PyError.typeError := by
    unfold create_app
    rw [hb]
  exact ⟨hb, hc, fun a hcontra => by rw [hc] at hcontra; cases hcontra⟩

/-- Claim C2: tenant gate — empty allowlist always allows (regardless of
tenant id); non-empty allowlist with a present tenant id outside the set
denies with exactly one fixed denial reply and no session mutation; non-empty
allowlist with an absent tenant id allows. -/
theorem C2_tenant_gate (s : AgentSettings) (st : ThreadMap) (act : Activity)
    (o : Oracle) :
    (s.allowed_tenants = [] → (_validate_tenant s act).1 = true) ∧
    (∀ t : String, s.allowed_tenants ≠ [] → act.conversation.tenant_id = some t →
       t ≠ "" → t ∉ s.allowed_tenants →
       sentTexts (on_message_activity s st act o).out = [denialText] ∧
       cardEvents (on_message_activity s st act o).out = [] ∧
       (on_message_activity s st act o).map = st) ∧
    (s.allowed_tenants ≠ [] → act.conversation.tenant_id = none →
       (_validate_tenant s act).1 = true) := by
  refine ⟨fun h => by rw [validate_tenant_empty s act h],
          fun t hne ht ht0 hmem => ?_,
          fun hne ht => by rw [validate_tenant_absent s act ht]⟩
  rw [on_message_denied s st act o (validate_tenant_denies s act t hne ht ht0 hmem)]
  exact ⟨by simp [sentTexts], by simp [cardEvents], rfl⟩

/-- Witness for C2 at concrete inputs: allowlist `["T1"]`, tenant `"T2"`. -/
theorem C2_tenant_gate_witness :
    sentTexts (on_message_activity sAllowT1 mOne actT2 oHappy).out = [denialText] ∧
    cardEvents (on_message_activity sAllowT1 mOne actT2 oHappy).out = [] ∧
    (on_message_activity sAllowT1 mOne actT2 oHappy).map = mOne :=
  (C2_tenant_gate sAllowT1 mOne actT2 oHappy).2.1 "T2"
    (by decide) rfl (by decide) (by decide)

/-- Claim C3: the tenant check is the first thing every message turn
evaluates (it heads every trace, hence precedes any token lookup), and a
denied tenant produces no token lookup, no sign-in card and no AI backend
call. -/
theorem C3_tenant_check_first (s : AgentSettings) (st : ThreadMap) (act : Activity)
    (o : Oracle) :
    (on_message_activity s st act o).out.head? = some Effect.tenantCheck ∧
    ((_validate_tenant s act).1 = false →
       countTokenLookups (on_message_activity s st act o).out = 0 ∧
       cardEvents (on_message_activity s st act o).out = [] ∧
       countBackendCalls (on_message_activity s st act o).out = 0) := by
  constructor
  · rcases validate_tenant_cases s act with hT | hT
    · cases hG : o.getToken none with
      | error e =>
        cases e
        rw [on_message_raised s st act o hT hG]
        rfl
      | ok res =>
        cases hv : validTokOpt res with
        | false =>
          rw [on_message_unauth s st act o res hT hG hv]
          rfl
        | true =>
          rw [on_message_auth s st act o res hT hG hv]
          obtain ⟨rest, hr⟩ :=
            handleAuth_out_shape st act o [Effect.tenantCheck, Effect.tokenLookup none]
          rw [hr]
          rfl
    · rw [on_message_denied s st act o hT]
      rfl
  · intro hfalse
    have hT : _validate_tenant s act =
        (false, [Effect.tenantCheck, Effect.sentText denialText]) := by
      rcases validate_tenant_cases s act with hh | hh
      · rw [hh] at hfalse; simp at hfalse
      · exact hh
    rw [on_message_denied s st act o hT]
    refine ⟨?_, by simp [cardEvents], ?_⟩
    · simp [countTokenLookups, List.countP_cons, isTokenLookup]
    · simp [countBackendCalls, List.countP_cons, isBackendCall]

/-- Witness for C3 at concrete inputs: the trace head, and the denied-tenant
consequences for allowlist `["T1"]` and tenant `"T2"`. -/
theorem C3_tenant_check_first_witness :
    (on_message_activity sAllowT1 mOne actT2 oHappy).out.head? =
      some Effect.tenantCheck ∧
    (countTokenLookups (on_message_activity sAllowT1 mOne actT2 oHappy).out = 0 ∧
     cardEvents (on_message_activity sAllowT1 mOne actT2 oHappy).out = [] ∧
     countBackendCalls (on_message_activity sAllowT1 mOne actT2 oHappy).out = 0) :=
  ⟨(C3_tenant_check_first sAllowT1 mOne actT2 oHappy).1,
   (C3_tenant_check_first sAllowT1 mOne actT2 oHappy).2 (by decide)⟩

/-- The relay tail always makes at least one AI relay call (the message
creation is attempted first in every branch). -/
theorem relayTailOut_relay_pos (tid text : String) (o : Oracle) :
    1 ≤ countRelayCalls (relayTailOut tid text o) := by
  unfold relayTailOut
  split
  · simp [countRelayCalls, List.countP_cons, isRelayCall]
  · split
    · simp [countRelayCalls, List.countP_cons, isRelayCall]
    · split
      · simp [countRelayCalls, List.countP_cons, isRelayCall]
      · split
        · simp [countRelayCalls, List.countP_cons, isRelayCall]
        · split
          · simp [countRelayCalls, List.countP_cons, isRelayCall]
          · simp [countRelayCalls, List.countP_cons, isRelayCall]

/-- Counterexample to claim C4 as stated: an authenticated `/reset` message
(after trim and lower-casing) for a conversation whose backend thread-delete
call raises leaves the conversation id in the thread map, because the `del`
statement sits after the delete call inside the same `try` block. -/
theorem C4_counterexample :
    pyLower (pyStrip actReset.text) ∈ resetCommands ∧
    oDelFail.getToken none = Except.ok (some ⟨"tok"⟩) ∧
    sentTexts (on_message_activity sOpen mOne actReset oDelFail).out =
      [resetConfirmText] ∧
    mapLookup (on_message_activity sOpen mOne actReset oDelFail).map
      actReset.conversation.id = some "th-0" := by
  refine ⟨by decide, rfl, ?_, ?_⟩ <;> rfl

/-- Claim C4 (amended): for every authenticated message whose text, after
trimming and lower-casing, is one of `/reset`, `/clear`, `/new`, the handler
replies with the fixed confirmation and makes no AI relay call; when the
conversation has a mapped thread, the backend delete is attempted, and the
mapping is evicted exactly when that delete call returns (the conversation id
is then no longer a key); when the delete raises, the mapping is left in
place. Messages not matching a command are forwarded to the AI relay. -/
theorem C4_reset_command (s : AgentSettings) (st : ThreadMap) (act : Activity)
    (o : Oracle) (res : Option TokenResponse)
    (hT : (_validate_tenant s act).1 = true)
    (hG : o.getToken none = Except.ok res)
    (hv : validTokOpt res = true)
    (hnd : keysNodup st) :
    (pyLower (pyStrip act.text) ∈ resetCommands →
       sentTexts (on_message_activity s st act o).out = [resetConfirmText] ∧
       countRelayCalls (on_message_activity s st act o).out = 0 ∧
       (mapLookup st act.conversation.id = none →
          (on_message_activity s st act o).map = st) ∧
       (∀ tid, mapLookup st act.conversation.id = some tid →
          (o.threadDelete = Except.ok () →
             (on_message_activity s st act o).map = mapErase st act.conversation.id ∧
             mapLookup (on_message_activity s st act o).map act.conversation.id = none) ∧
          (o.threadDelete = Except.error () →
             (on_message_activity s st act o).map = st))) ∧
    (pyLower (pyStrip act.text) ∉ resetCommands →
       1 ≤ countRelayCalls (on_message_activity s st act o).out) := by
  rw [on_message_auth s st act o res (validate_tenant_true_eq s act hT) hG hv]
  constructor
  · intro hcmd
    cases hpres : mapLookup st act.conversation.id with
    | none =>
      rw [handleAuth_reset_absent st act o _ hcmd hpres]
      refine ⟨by simp [sentTexts], ?_, fun _ => rfl, fun tid htid => nomatch htid⟩
      simp [countRelayCalls, List.countP_cons, isRelayCall]
    | some tid =>
      refine ⟨?_, ?_, ?_, ?_⟩
      · cases hdel : o.threadDelete with
        | ok u =>
          cases u
          rw [handleAuth_reset_del_ok st act o _ tid hcmd hpres hdel]
          simp [sentTexts]
        | error e =>
          cases e
          rw [handleAuth_reset_del_err st act o _ tid hcmd hpres hdel]
          simp [sentTexts]
      · cases hdel : o.threadDelete with
        | ok u =>
          cases u
          rw [handleAuth_reset_del_ok st act o _ tid hcmd hpres hdel]
          simp [countRelayCalls, List.countP_cons, isRelayCall]
        | error e =>
          cases e
          rw [handleAuth_reset_del_err st act o _ tid hcmd hpres hdel]
          simp [countRelayCalls, List.countP_cons, isRelayCall]
      · intro habs
        exact Option.noConfusion habs
      · intro tid2 htid2
        constructor
        · intro hdel
          rw [handleAuth_reset_del_ok st act o _ tid hcmd hpres hdel]
          exact ⟨rfl, mapLookup_mapErase_self st act.conversation.id hnd⟩
        · intro hdel
          rw [handleAuth_reset_del_err st act o _ tid hcmd hpres hdel]
  · intro hcmd
    rw [handleAuth_forward st act o _ hcmd]
    cases hpres : mapLookup st act.conversation.id with
    | some tid =>
      rw [process_existing st act o _ tid hpres]
      have := relayTailOut_relay_pos tid act.text o
      simp only [countRelayCalls] at this ⊢
      simp only [List.countP_append]
      omega
    | none =>
      cases hc : o.threadCreate with
      | error e =>
        cases e
        rw [process_create_err st act o _ hpres hc]
        simp [countRelayCalls, List.countP_cons, isRelayCall]
      | ok tid =>
        rw [process_create_ok st act o _ tid hpres hc]
        have := relayTailOut_relay_pos tid act.text o
        simp only [countRelayCalls] at this ⊢
        simp only [List.countP_append]
        omega

/-- Witness for C4 (amended) at concrete inputs: a padded mixed-case
`/reset`, a mapped conversation, and a successful delete. -/
theorem C4_reset_command_witness :
    sentTexts (on_message_activity sOpen mOne actReset oHappy).out = [resetConfirmText] ∧
    mapLookup (on_message_activity sOpen mOne actReset oHappy).map
      actReset.conversation.id = none := by
  have h := (C4_reset_command sOpen mOne actReset oHappy (some ⟨"tok"⟩)
    (by decide) rfl (by decide) (by decide)).1 (by decide)
  exact ⟨h.1, ((h.2.2.2 "th-0" rfl).1 rfl).2⟩

/-- Claim C5: session lifecycle — for every conversation id at most one
entry (key uniqueness is preserved); handling a message touches no other
conversation's entry; an existing mapping is never replaced (it survives
unchanged, or is removed and only by a reset command); and a new entry
appears only for an authenticated (tenant-allowed, valid-token), non-command
message for a conversation not yet in the map, holding the thread the
backend created. -/
theorem C5_session_lifecycle (s : AgentSettings) (st : ThreadMap) (act : Activity)
    (o : Oracle) (hnd : keysNodup st) :
    keysNodup (on_message_activity s st act o).map ∧
    (∀ k, k ≠ act.conversation.id →
       mapLookup (on_message_activity s st act o).map k = mapLookup st k) ∧
    (∀ tid, mapLookup st act.conversation.id = some tid →
       mapLookup (on_message_activity s st act o).map act.conversation.id = some tid ∨
       (mapLookup (on_message_activity s st act o).map act.conversation.id = none ∧
        pyLower (pyStrip act.text) ∈ resetCommands)) ∧
    (mapLookup st act.conversation.id = none →
       mapLookup (on_message_activity s st act o).map act.conversation.id ≠ none →
       (∃ res, o.getToken none = Except.ok res ∧ validTokOpt res = true) ∧
       pyLower (pyStrip act.text) ∉ resetCommands ∧
       (_validate_tenant s act).1 = true ∧
       ∃ tid, o.threadCreate = Except.ok tid ∧
         mapLookup (on_message_activity s st act o).map act.conversation.id = some tid) := by
  rcases on_message_map_cases s st act o with hm | ⟨hm, hcmd, tid, hpres⟩ |
    ⟨hpres, hcmd, hT, hauth, tid, hc, hm⟩
  · refine ⟨by rw [hm]; exact hnd, fun k _ => by rw [hm], fun tid2 h2 => by rw [hm]; exact Or.inl h2,
      fun habs hne => ?_⟩
    rw [hm] at hne
    exact absurd habs hne
  · refine ⟨by rw [hm]; exact keysNodup_mapErase st _ hnd,
      fun k hk => by rw [hm]; exact mapLookup_mapErase_ne st _ k hk,
      fun tid2 h2 => Or.inr ⟨by rw [hm]; exact mapLookup_mapErase_self st _ hnd, hcmd⟩,
      fun habs _ => ?_⟩
    rw [habs] at hpres
    exact Option.noConfusion hpres
  · refine ⟨by rw [hm]; exact keysNodup_mapInsert st _ tid hnd,
      fun k hk => by rw [hm]; exact mapLookup_mapInsert_ne st _ tid k hk,
      fun tid2 h2 => ?_, fun _ _ => ⟨hauth, hcmd, hT, tid, hc, ?_⟩⟩
    · rw [hpres] at h2
      exact Option.noConfusion h2
    · rw [hm]
      exact mapLookup_mapInsert_self st act.conversation.id tid

/-- Witness for C5 at concrete inputs: an authenticated non-command message
that lazily creates the thread mapping. -/
theorem C5_session_lifecycle_witness :
    keysNodup (on_message_activity sOpen [] actPlain oHappy).map ∧
    mapLookup (on_message_activity sOpen [] actPlain oHappy).map "convA" =
      some "th-new" := by
  have h := C5_session_lifecycle sOpen [] actPlain oHappy (by decide)
  refine ⟨h.1, ?_⟩
  have h4 := h.2.2.2 rfl (by decide)
  obtain ⟨_, _, _, tid, htid, hl⟩ := h4
  have : tid = "th-new" := by
    have := htid
    rw [show oHappy.threadCreate = Except.ok "th-new" from rfl] at this
    injection this with hh
    exact hh.symm
  rw [← this]
  exact hl

/-- Claim C6: sign-in trigger — when the token lookup returns no valid token
(and the tenant gate passed), the turn sends exactly one OAuth-card reply
built from the state blob binding the connection name, conversation
reference, relates-to reference, public base URL and bot app id, carrying the
sign-in link and the token-exchange and token-post resources; it makes zero
AI backend calls and leaves the thread map untouched, so repeating the
message is idempotent for session state. -/
theorem C6_sign_in_card (s : AgentSettings) (st : ThreadMap) (act : Activity)
    (o : Oracle) (res : Option TokenResponse)
    (hT : (_validate_tenant s act).1 = true)
    (hG : o.getToken none = Except.ok res)
    (hv : validTokOpt res = false) :
    cardEvents (on_message_activity s st act o).out =
      [(cardState s act, builtCard s act o)] ∧
    sentTexts (on_message_activity s st act o).out = [] ∧
    countBackendCalls (on_message_activity s st act o).out = 0 ∧
    (on_message_activity s st act o).map = st ∧
    on_message_activity s (on_message_activity s st act o).map act o =
      on_message_activity s st act o ∧
    cardState s act =
      { connection_name := s.oauth_connection_name
        conversation := act.conversation.id
        relates_to := act.relates_to
        agent_url := s.public_base_url
        ms_app_id := s.bot_app_id } ∧
    (builtCard s act o).button_value =
      (o.signInResource (cardState s act)).sign_in_link ∧
    (builtCard s act o).token_exchange_resource =
      (o.signInResource (cardState s act)).token_exchange_resource ∧
    (builtCard s act o).token_post_resource =
      (o.signInResource (cardState s act)).token_post_resource := by
  have hres := on_message_unauth s st act o res (validate_tenant_true_eq s act hT) hG hv
  rw [hres]
  refine ⟨by simp [cardEvents, _send_sign_in_card], by simp [sentTexts, _send_sign_in_card],
    ?_, rfl, by rw [hres], rfl, rfl, rfl, rfl⟩
  simp [countBackendCalls, List.countP_cons, isBackendCall, _send_sign_in_card]

/-- Witness for C6 at concrete inputs: no cached token, one card reply,
unchanged empty map. -/
theorem C6_sign_in_card_witness :
    cardEvents (on_message_activity sOpen [] actPlain oNoTok).out =
      [(cardState sOpen actPlain, builtCard sOpen actPlain oNoTok)] ∧
    countBackendCalls (on_message_activity sOpen [] actPlain oNoTok).out = 0 ∧
    (on_message_activity sOpen [] actPlain oNoTok).map = [] :=
  ⟨(C6_sign_in_card sOpen [] actPlain oNoTok none (by decide) rfl (by decide)).1,
   (C6_sign_in_card sOpen [] actPlain oNoTok none (by decide) rfl (by decide)).2.2.1,
   (C6_sign_in_card sOpen [] actPlain oNoTok none (by decide) rfl (by decide)).2.2.2.1⟩

/-- Claim C7: token-exchange invoke — when the gateway exchange yields a
valid token, the handler answers with an invoke response carrying the request
id and the connection name from the request (falling back to the configured
connection name when the request carries none); when the exchange yields no
valid token, it fails with the 412 precondition-failed signal and no
invoke-response body. -/
theorem C7_token_exchange (s : AgentSettings) (act : InvokeActivity) (o : Oracle)
    (h : act.name = token_exchange_operation_name) :
    (∀ tr : TokenResponse,
       o.exchangeToken (pyOrStr act.value.connection_name s.oauth_connection_name) =
         some tr →
       tr.token ≠ "" →
       on_sign_in_invoke s act o =
         InvokeOutcome.invokeResponse
           (some { id := act.value.id
                   connection_name :=
                     pyOrStr act.value.connection_name s.oauth_connection_name })) ∧
    (validTokOpt
       (o.exchangeToken (pyOrStr act.value.connection_name s.oauth_connection_name)) =
         false →
       on_sign_in_invoke s act o = InvokeOutcome.invokeException 412) := by
  unfold on_sign_in_invoke _handle_token_exchange
  rw [if_pos h]
  constructor
  · intro tr htr hne
    rw [htr]
    simp [hne]
  · intro hfail
    cases hx : o.exchangeToken (pyOrStr act.value.connection_name s.oauth_connection_name) with
    | none => rfl
    | some tr =>
      rw [hx] at hfail
      have hz : tr.token = "" := by simpa [validTokOpt] using hfail
      simp [hz]

/-- Witness for C7 at concrete inputs: a successful exchange answers with the
request id and connection name; a failing exchange raises 412. -/
theorem C7_token_exchange_witness :
    on_sign_in_invoke sOpen
      { name := token_exchange_operation_name
        value := { id := "req-1", connection_name := none, state := none } }
      oHappy =
      InvokeOutcome.invokeResponse (some { id := "req-1", connection_name := "conn" }) ∧
    on_sign_in_invoke sOpen
      { name := token_exchange_operation_name
        value := { id := "req-1", connection_name := none, state := none } }
      { oHappy with exchangeToken := fun _ => none } =
      InvokeOutcome.invokeException 412 := by
  constructor
  · exact (C7_token_exchange sOpen
      { name := token_exchange_operation_name
        value := { id := "req-1", connection_name := none, state := none } }
      oHappy rfl).1 ⟨"tok"⟩ rfl (by decide)
  · exact (C7_token_exchange sOpen
      { name := token_exchange_operation_name
        value := { id := "req-1", connection_name := none, state := none } }
      { oHappy with exchangeToken := fun _ => none } rfl).2 (by decide)

/-- Claim C8: verify-state invoke — the magic code is taken from the
activity's value payload and redeemed through the gateway token lookup; when
that lookup returns a valid token the handler answers with an empty
acknowledgement invoke response (200 semantics), and when it returns no valid
token it fails with the 400 bad-request signal. -/
theorem C8_verify_state (s : AgentSettings) (act : InvokeActivity) (o : Oracle)
    (h : act.name = verify_state_operation_name) :
    (∀ tr : TokenResponse,
       o.getToken act.value.state = Except.ok (some tr) →
       tr.token ≠ "" →
       on_sign_in_invoke s act o = InvokeOutcome.invokeResponse none) ∧
    (∀ res : Option TokenResponse,
       o.getToken act.value.state = Except.ok res →
       validTokOpt res = false →
       on_sign_in_invoke s act o = InvokeOutcome.invokeException 400) := by
  have hne : ¬act.name = token_exchange_operation_name := by
    rw [h]
    decide
  unfold on_sign_in_invoke
  rw [if_neg hne, if_pos h]
  constructor
  · intro tr htr hnz
    rw [htr]
    simp [validTokOpt, hnz]
  · intro res hres hfail
    rw [hres]
    simp [hfail]

/-- Witness for C8 at concrete inputs: a valid magic-code redemption answers
200-empty; an invalid one raises 400. -/
theorem C8_verify_state_witness :
    on_sign_in_invoke sOpen
      { name := verify_state_operation_name
        value := { id := "", connection_name := none, state := some "123456" } }
      oHappy = InvokeOutcome.invokeResponse none ∧
    on_sign_in_invoke sOpen
      { name := verify_state_operation_name
        value := { id := "", connection_name := none, state := some "123456" } }
      oNoTok = InvokeOutcome.invokeException 400 := by
  constructor
  · exact (C8_verify_state sOpen
      { name := verify_state_operation_name
        value := { id := "", connection_name := none, state := some "123456" } }
      oHappy rfl).1 ⟨"tok"⟩ rfl (by decide)
  · exact (C8_verify_state sOpen
      { name := verify_state_operation_name
        value := { id := "", connection_name := none, state := some "123456" } }
      oNoTok rfl).2 none rfl (by decide)

/-- Counterexample to claim C9 as stated: a raising token lookup is not
converted into the no-token path — the exception escapes the message handler
and no sign-in card is sent (`_get_user_token` has no try/except around
`get_token`). -/
theorem C9_counterexample :
    oTokFail.getToken none = Except.error () ∧
    (on_message_activity sOpen [] actPlain oTokFail).outcome = Outcome.raised ∧
    cardEvents (on_message_activity sOpen [] actPlain oTokFail).out = [] ∧
    sentTexts (on_message_activity sOpen [] actPlain oTokFail).out = [] := by
  exact ⟨rfl, rfl, rfl, rfl⟩

/-- Claim C9 (amended): when the credential gateway's token lookup raises
during a message turn, the exception propagates out of the handler — the user
is not sent a sign-in card (nor any reply) and the thread map is untouched;
the failure is not treated as "no token". -/
theorem C9_gateway_failure_propagates (s : AgentSettings) (st : ThreadMap)
    (act : Activity) (o : Oracle)
    (hT : (_validate_tenant s act).1 = true)
    (hG : o.getToken none = Except.error ()) :
    (on_message_activity s st act o).outcome = Outcome.raised ∧
    cardEvents (on_message_activity s st act o).out = [] ∧
    sentTexts (on_message_activity s st act o).out = [] ∧
    (on_message_activity s st act o).map = st := by
  rw [on_message_raised s st act o (validate_tenant_true_eq s act hT) hG]
  exact ⟨rfl, by simp [cardEvents], by simp [sentTexts], rfl⟩

/-- Witness for C9 (amended) at concrete inputs. -/
theorem C9_gateway_failure_propagates_witness :
    (on_message_activity sOpen mOne actPlain oTokFail).outcome = Outcome.raised ∧
    (on_message_activity sOpen mOne actPlain oTokFail).map = mOne :=
  ⟨(C9_gateway_failure_propagates sOpen mOne actPlain oTokFail (by decide) rfl).1,
   (C9_gateway_failure_propagates sOpen mOne actPlain oTokFail (by decide) rfl).2.2.2⟩

/-- The condition under which the relay tail's first failing external call
raises (message creation, run processing, or message retrieval after a
non-failed run). -/
def tailRaises (o : Oracle) : Prop :=
  o.messageCreate = Except.error () ∨
  (o.messageCreate = Except.ok () ∧
    (o.runStatus = Except.error () ∨
     ∃ stt, o.runStatus = Except.ok stt ∧ stt ≠ "failed" ∧
       o.listMessages = Except.error ()))

/-- The condition under which some AI backend call of the relay raises during
a turn for the given conversation: thread creation when the conversation has
no thread yet, or a later call. -/
def relayRaises (st : ThreadMap) (conv : String) (o : Oracle) : Prop :=
  match mapLookup st conv with
  | none =>
    o.threadCreate = Except.error () ∨
    ((∃ tid, o.threadCreate = Except.ok tid) ∧ tailRaises o)
  | some _ => tailRaises o

theorem countRunCalls_append (a b : List Effect) :
    countRunCalls (a ++ b) = countRunCalls a + countRunCalls b := by
  simp [countRunCalls, List.countP_append]

/-- Under `tailRaises`, the relay tail sends exactly the fixed apology, no
card, and runs the backend calls at most once each. -/
theorem relayTailOut_fail (tid text : String) (o : Oracle) (h : tailRaises o) :
    sentTexts (relayTailOut tid text o) = [backendErrorText] ∧
    cardEvents (relayTailOut tid text o) = [] ∧
    countRunCalls (relayTailOut tid text o) ≤ 1 := by
  rcases h with hm | ⟨hm, hr | ⟨stt, hs, hne, hl⟩⟩
  · unfold relayTailOut
    rw [hm]
    refine ⟨by simp [sentTexts], by simp [cardEvents], ?_⟩
    simp [countRunCalls, List.countP_cons, isRunCall]
  · unfold relayTailOut
    rw [hm, hr]
    refine ⟨by simp [sentTexts], by simp [cardEvents], ?_⟩
    simp [countRunCalls, List.countP_cons, isRunCall]
  · unfold relayTailOut
    simp only [hm, hs, hl, if_neg hne]
    refine ⟨by simp [sentTexts], by simp [cardEvents], ?_⟩
    simp [countRunCalls, List.countP_cons, isRunCall]

/-- Claim C10: backend failure handling — for an authenticated non-command
message turn, if any AI backend call of the relay raises, the handler returns
normally (the exception is caught at the relay boundary), the user receives
exactly one fixed apologetic reply, no call is retried (the run is invoked at
most once), and the thread map is left as-is except that a thread created
earlier in the same turn may remain mapped. -/
theorem C10_backend_failure (s : AgentSettings) (st : ThreadMap) (act : Activity)
    (o : Oracle) (res : Option TokenResponse)
    (hT : (_validate_tenant s act).1 = true)
    (hG : o.getToken none = Except.ok res)
    (hv : validTokOpt res = true)
    (hcmd : pyLower (pyStrip act.text) ∉ resetCommands)
    (hR : relayRaises st act.conversation.id o) :
    (on_message_activity s st act o).outcome = Outcome.normal ∧
    sentTexts (on_message_activity s st act o).out = [backendErrorText] ∧
    cardEvents (on_message_activity s st act o).out = [] ∧
    countRunCalls (on_message_activity s st act o).out ≤ 1 ∧
    ((on_message_activity s st act o).map = st ∨
     (mapLookup st act.conversation.id = none ∧
      ∃ tid, o.threadCreate = Except.ok tid ∧
        (on_message_activity s st act o).map = mapInsert st act.conversation.id tid)) := by
  rw [on_message_auth s st act o res (validate_tenant_true_eq s act hT) hG hv,
    handleAuth_forward st act o _ hcmd]
  unfold relayRaises at hR
  cases hpres : mapLookup st act.conversation.id with
  | some tid =>
    rw [hpres] at hR
    rw [process_existing st act o _ tid hpres]
    obtain ⟨h1, h2, h3⟩ := relayTailOut_fail tid act.text o hR
    refine ⟨rfl, ?_, ?_, ?_, Or.inl rfl⟩
    · rw [show (⟨[Effect.tenantCheck, Effect.tokenLookup none] ++ relayTailOut tid act.text o,
        st, Outcome.normal⟩ : HandlerResult).out =
        [Effect.tenantCheck, Effect.tokenLookup none] ++ relayTailOut tid act.text o from rfl,
        sentTexts_append, h1]
      rfl
    · rw [show (⟨[Effect.tenantCheck, Effect.tokenLookup none] ++ relayTailOut tid act.text o,
        st, Outcome.normal⟩ : HandlerResult).out =
        [Effect.tenantCheck, Effect.tokenLookup none] ++ relayTailOut tid act.text o from rfl,
        cardEvents_append, h2]
      rfl
    · rw [show (⟨[Effect.tenantCheck, Effect.tokenLookup none] ++ relayTailOut tid act.text o,
        st, Outcome.normal⟩ : HandlerResult).out =
        [Effect.tenantCheck, Effect.tokenLookup none] ++ relayTailOut tid act.text o from rfl,
        countRunCalls_append]
      have h0 : countRunCalls [Effect.tenantCheck, Effect.tokenLookup none] = 0 := rfl
      omega
  | none =>
    rw [hpres] at hR
    rcases hR with hc | ⟨⟨tid, hc⟩, htail⟩
    · rw [process_create_err st act o _ hpres hc]
      refine ⟨rfl, by simp [sentTexts], by simp [cardEvents], ?_, Or.inl rfl⟩
      simp [countRunCalls, List.countP_cons, isRunCall]
    · rw [process_create_ok st act o _ tid hpres hc]
      obtain ⟨h1, h2, h3⟩ := relayTailOut_fail tid act.text o htail
      refine ⟨rfl, ?_, ?_, ?_, Or.inr ⟨rfl, tid, hc, rfl⟩⟩
      · rw [show (⟨([Effect.tenantCheck, Effect.tokenLookup none] ++ [Effect.threadCreateCall]) ++
          relayTailOut tid act.text o, mapInsert st act.conversation.id tid,
          Outcome.normal⟩ : HandlerResult).out =
          ([Effect.tenantCheck, Effect.tokenLookup none] ++ [Effect.threadCreateCall]) ++
          relayTailOut tid act.text o from rfl, sentTexts_append, h1]
        rfl
      · rw [show (⟨([Effect.tenantCheck, Effect.tokenLookup none] ++ [Effect.threadCreateCall]) ++
          relayTailOut tid act.text o, mapInsert st act.conversation.id tid,
          Outcome.normal⟩ : HandlerResult).out =
          ([Effect.tenantCheck, Effect.tokenLookup none] ++ [Effect.threadCreateCall]) ++
          relayTailOut tid act.text o from rfl, cardEvents_append, h2]
        rfl
      · rw [show (⟨([Effect.tenantCheck, Effect.tokenLookup none] ++ [Effect.threadCreateCall]) ++
          relayTailOut tid act.text o, mapInsert st act.conversation.id tid,
          Outcome.normal⟩ : HandlerResult).out =
          ([Effect.tenantCheck, Effect.tokenLookup none] ++ [Effect.threadCreateCall]) ++
          relayTailOut tid act.text o from rfl, countRunCalls_append]
        have h0 : countRunCalls ([Effect.tenantCheck, Effect.tokenLookup none] ++
          [Effect.threadCreateCall]) = 0 := rfl
        omega

/-- Witness for C10 at concrete inputs: an authenticated "hello" turn whose
run-processing call raises, over a conversation with an existing thread. -/
theorem C10_backend_failure_witness :
    (on_message_activity sOpen mOne actPlain oRunFail).outcome = Outcome.normal ∧
    sentTexts (on_message_activity sOpen mOne actPlain oRunFail).out =
      [backendErrorText] ∧
    (on_message_activity sOpen mOne actPlain oRunFail).map = mOne := by
  have h := C10_backend_failure sOpen mOne actPlain oRunFail (some ⟨"tok"⟩)
    (by decide) rfl (by decide) (by decide)
    (by right; exact ⟨rfl, Or.inl rfl⟩)
  refine ⟨h.1, h.2.1, ?_⟩
  rcases h.2.2.2.2 with hm | ⟨habs, _⟩
  · exact hm
  · exact absurd habs (by decide)

end BotModel

